import Mathlib

/-!
Verification of the y-excalidraw binding (`src/index.ts`) against its
natural-language specification.

The embedding below models the binding's pure decision logic: each event
handler of `ExcalidrawBinding` becomes a Lean function from its inputs
(shared CRDT state, UI scene, notification payload, transaction origin)
to the outputs it produces (the new UI scene, the stored snapshot, the
argument passed to `addFiles`, and so on).  External objects (Yjs arrays
and maps, the Excalidraw API, the awareness protocol) are modelled by
the values the handlers read from them.  Transaction origins and
awareness client ids are modelled as natural numbers; the JavaScript
identity test `txn.origin === this` becomes equality with the binding's
own id.
-/

/-- An Excalidraw element as the binding sees it: a stable id, a version
counter bumped by the UI on every semantic mutation, and otherwise opaque
shape data (modelled by a single field). -/
structure Element where
  id : String
  version : Nat
  data : Nat
  deriving Repr, DecidableEq

/-- One entry of the shared elements sequence `yElements`: a `Y.Map` holding
the element payload under key `"el"` and its fractional position key under
`"pos"`. -/
structure YElementEntry where
  el : Element
  pos : String
  deriving Repr, DecidableEq

/-- A Snapshot Entry, `LastKnownOrderedElement` in `diff.ts`: the minimal
`{id, version, pos}` projection the binding remembers between events. -/
structure LastKnownOrderedElement where
  id : String
  version : Nat
  pos : String
  deriving Repr, DecidableEq

/-- Lexicographic "less or equal" on character lists, by code point —
the order JavaScript `<`/`>` induce on the ASCII position keys in play. -/
def charListLe : List Char → List Char → Bool
  | [], _ => true
  | _ :: _, [] => false
  | a :: as, b :: bs =>
    if a = b then charListLe as bs else Nat.blt a.toNat b.toNat

/-- String comparison used for position keys (JavaScript `key1 < key2`). -/
def strLe (a b : String) : Bool := charListLe a.data b.data

/-- Stable insertion of `x` into a list already sorted by the string key
`key`: `x` is placed before the first element with a strictly larger key,
after equal keys, matching JavaScript stable `Array.prototype.sort` with
comparator `key1 > key2 ? 1 : (key1 < key2 ? -1 : 0)`. -/
def insertByKey (key : α → String) (x : α) : List α → List α
  | [] => [x]
  | y :: ys => if strLe (key x) (key y) then x :: y :: ys else y :: insertByKey key x ys

/-- Stable sort by a string key (models the `.sort` calls on position keys
in `index.ts`, which use a stable sort with a three-way comparator). -/
def sortByKey (key : α → String) (l : List α) : List α :=
  l.foldr (insertByKey key) []

/-- Modelled from the spec: `yjsToExcalidraw` lives in `helpers.ts`, which is
not part of the provided sources.  Per §4.4 it reads the full shared
sequence and returns the element payloads in position-key order ("the local
UI list order exactly matches the shared sequence's position order"). -/
def yjsToExcalidraw (yElements : List YElementEntry) : List Element :=
  (sortByKey (·.pos) yElements).map (·.el)

/-- The `{id, version, pos}` projection of the shared sequence sorted by
position key — the expression `this.yElements.toArray().map(...).sort(...)`
computed at `index.ts:132-138` and again at `index.ts:223-229`. -/
def snapshotOfYElements (yElements : List YElementEntry) : List LastKnownOrderedElement :=
  sortByKey (·.pos) (yElements.map (fun x => ⟨x.el.id, x.el.version, x.pos⟩))

/-- One deep-change record delivered to the remote element listener.
`isMapEvent` distinguishes `Y.YMapEvent` (a content change of one entry,
whose target map yields the changed element's id) from array-level
structural events, which contribute no changed-content id
(`index.ts:117-122`). -/
structure YChangeEvent where
  isMapEvent : Bool
  targetElId : String
  deriving Repr, DecidableEq

/-- The changed-content id set derived from the change records:
`event.flatMap(e => e instanceof Y.YMapEvent ? [e.target.get("el").id] : [])`
(`index.ts:117-122`). -/
def changedElementIds (events : List YChangeEvent) : List String :=
  events.foldr (fun e acc => if e.isMapEvent then e.targetElId :: acc else acc) []

/-- Outputs of one run of the remote element listener: the element list
pushed via `updateScene` (unchanged when the handler returned early), the
stored snapshot, and whether `updateScene` was invoked. -/
structure RemoteElementsResult where
  scene : List Element
  lastKnownElements : List LastKnownOrderedElement
  updateSceneCalled : Bool
  deriving Repr, DecidableEq

/-- `_remoteElementsChangeHandler` (`index.ts:111-140`): on a self-tagged
transaction it returns immediately; otherwise it derives the changed-content
id set, rebuilds the element list from the shared sequence — fresh payload
for changed ids, the locally-held scene object otherwise when present —
recomputes the snapshot in position order, and pushes the list to the UI. -/
def remoteElementsChangeHandler (selfId : Nat) (yElements : List YElementEntry)
    (scene : List Element) (lastKnown : List LastKnownOrderedElement)
    (events : List YChangeEvent) (origin : Nat) : RemoteElementsResult :=
  if origin = selfId then
    { scene := scene, lastKnownElements := lastKnown, updateSceneCalled := false }
  else
    let changed := changedElementIds events
    let remoteElements := yjsToExcalidraw yElements
    let elements := remoteElements.map (fun el =>
      if changed.contains el.id then el
      else (scene.find? (fun existingEl => existingEl.id == el.id)).getD el)
    { scene := elements
      lastKnownElements := snapshotOfYElements yElements
      updateSceneCalled := true }


/-- A shared binary asset (`BinaryFileData`): an id plus opaque payload. -/
structure BinaryFileData where
  id : String
  dataURL : String
  deriving Repr, DecidableEq

/-- The shared assets map `yAssets`, modelled as an association list
(key, payload); `yAssets.get(key)` on an absent key yields JavaScript
`undefined`, modelled as `none`. -/
def assetsGet (yAssets : List (String × BinaryFileData)) (key : String) :
    Option BinaryFileData :=
  (yAssets.find? (fun kv => kv.1 == key)).map (·.2)

/-- `_remoteFilesChangeHandler` (`index.ts:145-163`): returns the argument
passed to `api.addFiles` (`some files`), or `none` when `addFiles` is not
called (self-tagged transaction, or the `transformRemoteFiles` hook returned
no value).  Entries are `Option BinaryFileData` because `yAssets.get(key)`
is `undefined` for keys the batch removed. -/
def remoteFilesChangeHandler (selfId : Nat)
    (yAssets : List (String × BinaryFileData))
    (transformRemoteFiles : Option (List (Option BinaryFileData) → Option (List (Option BinaryFileData))))
    (keysChanged : List String) (origin : Nat) :
    Option (List (Option BinaryFileData)) :=
  if origin = selfId then
    none
  else
    let addedFiles := keysChanged.map (fun key => assetsGet yAssets key)
    match transformRemoteFiles with
    | some hook =>
      match hook addedFiles with
      | none => none
      | some res => some res
    | none => some addedFiles


/-- The `user` sub-object of an awareness state. -/
structure AwarenessUser where
  name : Option String
  color : Option String
  avatarUrl : Option String
  state : Option String
  deriving Repr, DecidableEq

/-- One peer's ephemeral awareness state as read from
`awareness.getStates().get(id)`. -/
structure AwarenessState where
  pointer : Option (Nat × Nat)
  button : Option String
  selectedElementIds : Option (List String)
  user : Option AwarenessUser
  deriving Repr, DecidableEq

/-- An Excalidraw `Collaborator` entry as the binding builds it. -/
structure Collaborator where
  pointer : Option (Nat × Nat)
  button : Option String
  selectedElementIds : Option (List String)
  username : Option String
  color : Option String
  avatarUrl : Option String
  userState : Option String
  deriving Repr, DecidableEq

/-- The field-by-field construction of a `Collaborator` from an awareness
state (`index.ts:192-200` and `index.ts:257-265`); `state.user?.x` is
`Option.bind`. -/
def collabOfState (s : AwarenessState) : Collaborator :=
  { pointer := s.pointer
    button := s.button
    selectedElementIds := s.selectedElementIds
    username := s.user.bind (·.name)
    color := s.user.bind (·.color)
    avatarUrl := s.user.bind (·.avatarUrl)
    userState := s.user.bind (·.state) }

/-- A JavaScript `Map<SocketId, Collaborator>` modelled as an association
list in insertion order. -/
def CollabMap := List (String × Collaborator)
  deriving Repr, DecidableEq

/-- `Map.prototype.set`: replace in place when the key exists, else append. -/
def mapSet (m : CollabMap) (k : String) (v : Collaborator) : CollabMap :=
  match m with
  | [] => [(k, v)]
  | (k0, v0) :: rest =>
    if k0 == k then (k, v) :: rest else (k0, v0) :: mapSet rest k v

/-- `Map.prototype.delete`. -/
def mapDelete (m : CollabMap) (k : String) : CollabMap :=
  match m with
  | [] => []
  | (k0, v0) :: rest =>
    if k0 == k then rest else (k0, v0) :: mapDelete rest k

/-- `Map.prototype.has`. -/
def mapHas (m : CollabMap) (k : String) : Bool :=
  m.any (fun kv => kv.1 == k)

/-- The awareness states map, `awareness.getStates()`: client id → state.
A `none` state models a `get` that returned `undefined` (the
`if (!state) continue` guard in the source). -/
def AwarenessStates := List (Nat × Option AwarenessState)

/-- Look up one client's state, `states.get(id)`. -/
def statesGet (states : AwarenessStates) (id : Nat) : Option AwarenessState :=
  match states.find? (fun kv => kv.1 == id) with
  | some (_, s) => s
  | none => none

/-- `_remoteAwarenessChangeHandler` (`index.ts:173-208`): copy the previous
collaborator map, upsert every added/updated id whose state is available,
delete every removed id, delete the local client's own id, and publish. -/
def remoteAwarenessChangeHandler (clientID : Nat) (states : AwarenessStates)
    (prev : CollabMap) (added updated removed : List Nat) : CollabMap :=
  let upserted := (added ++ updated).foldl
    (fun m id =>
      match statesGet states id with
      | none => m
      | some state => mapSet m (toString id) (collabOfState state))
    prev
  let afterRemoved := removed.foldl (fun m id => mapDelete m (toString id)) upserted
  mapDelete afterRemoved (toString clientID)

/-- The initial collaborator map built in the constructor
(`index.ts:246-270`): iterate all awareness states, upsert every available
one into an empty map, and publish.  Unlike the change handler, no deletion
of the local client id occurs here. -/
def initialCollaborators (awarenessStates : Option AwarenessStates) : CollabMap :=
  match awarenessStates with
  | none => []
  | some states =>
    states.foldl
      (fun m kv =>
        match kv.2 with
        | none => m
        | some state => mapSet m (toString kv.1) (collabOfState state))
      []



/-- A keyboard event as seen by `_keyPressHandler`: modifier flags and the
`key` string (`none` when `event.key` is `undefined`, guarded by `?.`). -/
structure KeyEvent where
  ctrlKey : Bool
  shiftKey : Bool
  key : Option String
  deriving Repr, DecidableEq

/-- Effects of one `_keyPressHandler` run. -/
structure KeyHandlerResult where
  stoppedPropagation : Bool
  undoCalls : Nat
  redoCalls : Nat
  deriving Repr, DecidableEq

/-- ASCII lower-casing of one character (what `toLocaleLowerCase` does on
the key names at issue). -/
def lowerChar (c : Char) : Char :=
  if 65 ≤ c.toNat && c.toNat ≤ 90 then Char.ofNat (c.toNat + 32) else c

/-- `event.key?.toLocaleLowerCase() === 'z'`: `undefined` keys compare
false; otherwise lower-case and compare with `"z"`. -/
def keyIsZ (key : Option String) : Bool :=
  match key with
  | none => false
  | some k => k.data.map lowerChar == ['z']

/-- `_keyPressHandler` (`index.ts:298-307`): ctrl+shift+z stops propagation
and redoes; otherwise ctrl+z stops propagation and undoes; anything else
falls through untouched. -/
def keyPressHandler (event : KeyEvent) : KeyHandlerResult :=
  if event.ctrlKey && event.shiftKey && keyIsZ event.key then
    { stoppedPropagation := true, undoCalls := 0, redoCalls := 1 }
  else if event.ctrlKey && keyIsZ event.key then
    { stoppedPropagation := true, undoCalls := 1, redoCalls := 0 }
  else
    { stoppedPropagation := false, undoCalls := 0, redoCalls := 0 }

/-- The options object of the `keydown` registration for `_keyPressHandler`:
`excalidrawDom.addEventListener('keydown', _keyPressHandler,
{ capture: true })` (`index.ts:308`). -/
def keydownListenerCapture : Bool := true


/-- What `setupUndoRedo` and the constructor's undo branch attach.  The
fields record: whether the warning was logged, whether the `keydown`
capture handler was attached, whether the button rescan machinery was set
up, and whether `addTrackedOrigin(this)` ran. -/
structure UndoFeature where
  warned : Bool
  keyHandlerAttached : Bool
  buttonRescanAttached : Bool
  trackedOriginAdded : Bool
  deriving Repr, DecidableEq

/-- The constructor's undo branch (`index.ts:215-219` plus
`setupUndoRedo`, `index.ts:287-348`): with both an undo manager and a DOM
root, the whole feature is set up; with an undo manager but no root, only a
warning is logged; with no undo manager, nothing happens. -/
def constructorUndoSetup (hasUndoManager hasExcalidrawDom : Bool) : UndoFeature :=
  if hasUndoManager && hasExcalidrawDom then
    { warned := false, keyHandlerAttached := true
      buttonRescanAttached := true, trackedOriginAdded := true }
  else if hasUndoManager && !hasExcalidrawDom then
    { warned := true, keyHandlerAttached := false
      buttonRescanAttached := false, trackedOriginAdded := false }
  else
    { warned := false, keyHandlerAttached := false
      buttonRescanAttached := false, trackedOriginAdded := false }

/-- `undoManager.addTrackedOrigin(this)` (`index.ts:294`): the tracked
origin set, modelled as a list of binding ids, gains this binding. -/
def addTrackedOrigin (selfId : Nat) (tracked : List Nat) : List Nat :=
  selfId :: tracked

/-- `undoManager.removeTrackedOrigin(this)` — the teardown subscription
pushed at `index.ts:295` and run by `destroy()`. -/
def removeTrackedOrigin (selfId : Nat) (tracked : List Nat) : List Nat :=
  tracked.filter (fun o => o ≠ selfId)

/-- Modelled from the spec: `areElementsSame` lives in `helpers.ts`, absent
from the provided sources.  Per §4.1 it compares the current element list
against the Snapshot Entry list "purely by `(id, version)` pairs in
order". -/
def areElementsSame (lastKnown : List LastKnownOrderedElement)
    (elements : List Element) : Bool :=
  match lastKnown, elements with
  | [], [] => true
  | lk :: lks, el :: els =>
    lk.id == el.id && lk.version == el.version && areElementsSame lks els
  | _, _ => false

/-- An element operation produced by the Delta Computer (`diff.ts`):
Insert with position, Update, Delete (§3 of the spec). -/
inductive Operation where
  | insert (el : Element) (pos : String)
  | update (el : Element)
  | delete (id : String)
  deriving Repr, DecidableEq

/-- A fresh position key for index `i` in a batch of inserts — strictly
increasing in `i`.  The concrete key scheme is internal to `diff.ts`
(absent from the sources); only its relative order matters here. -/
def genPos (i : Nat) : String :=
  String.mk (List.replicate (i + 1) 'a')

/-- Result of the element Delta Computer: the operation list and the new
Snapshot Entry list that replaces the stored snapshot. -/
structure DeltaElementsResult where
  operations : List Operation
  lastKnownElements : List LastKnownOrderedElement
  deriving Repr, DecidableEq

/-- Modelled from the spec: `getDeltaOperationsForElements` lives in
`diff.ts`, absent from the provided sources.  Per §4.2: ids present only in
the new list become Insert with their position; ids in both whose version
differs become Update; ids present only in the old list become Delete; and
the new Snapshot Entry list — returned whether or not any operations
result — carries the current list's `(id, version)` pairs in order, keeping
an id's previous position when it had one and generating a fresh one
otherwise. -/
def getDeltaOperationsForElements (lastKnown : List LastKnownOrderedElement)
    (elements : List Element) : DeltaElementsResult :=
  let posOf := fun (i : Nat) (el : Element) =>
    match lastKnown.find? (fun lk => lk.id == el.id) with
    | some lk => lk.pos
    | none => genPos i
  let inserts_updates := elements.enum.filterMap (fun p =>
    match lastKnown.find? (fun lk => lk.id == p.2.id) with
    | none => some (Operation.insert p.2 (posOf p.1 p.2))
    | some lk => if lk.version == p.2.version then none else some (Operation.update p.2))
  let deletes := (lastKnown.filter
    (fun lk => !(elements.any (fun el => el.id == lk.id)))).map
    (fun lk => Operation.delete lk.id)
  { operations := inserts_updates ++ deletes
    lastKnownElements := elements.enum.map (fun p =>
      { id := p.2.id, version := p.2.version, pos := posOf p.1 p.2 }) }

/-- The element half of the `api.onChange` callback (`index.ts:83-91`): if
the current scene matches the snapshot by `(id, version)` pairs, nothing is
computed and `applyElementOperations` is not called; otherwise the delta is
computed, the snapshot replaced, and the operations written to `yElements`
through `applyElementOperations`. -/
structure OnChangeElementsResult where
  operations : List Operation
  lastKnownElements : List LastKnownOrderedElement
  wroteToYElements : Bool
  deriving Repr, DecidableEq

def localElementsOnChange (lastKnown : List LastKnownOrderedElement)
    (elements : List Element) : OnChangeElementsResult :=
  if areElementsSame lastKnown elements then
    { operations := [], lastKnownElements := lastKnown, wroteToYElements := false }
  else
    let res := getDeltaOperationsForElements lastKnown elements
    { operations := res.operations
      lastKnownElements := res.lastKnownElements
      wroteToYElements := true }




/-- The state a completed `ExcalidrawBinding` constructor leaves behind
(`index.ts:215-270`): the undo feature's setup outcome, the initial scene
pushed via `updateScene`, the initial snapshot, the argument of the initial
`addFiles` call (`none` when it was skipped), and the initial collaborator
map pushed via `updateScene`. -/
structure BindingInit where
  undoFeature : UndoFeature
  scene : List Element
  lastKnownElements : List LastKnownOrderedElement
  initialFilesAdded : Option (List (Option BinaryFileData))
  collaborators : CollabMap
  deriving Repr, DecidableEq

/-- The tail of the `ExcalidrawBinding` constructor (`index.ts:215-270`):
undo branch, element initialization, asset initialization (through the
optional `transformRemoteFiles` hook), and collaborator initialization.
The function is total: every input shape completes construction. -/
def mkBinding (yElements : List YElementEntry)
    (yAssets : List (String × BinaryFileData))
    (awarenessStates : Option AwarenessStates)
    (hasUndoManager hasExcalidrawDom : Bool)
    (transformRemoteFiles : Option (List (Option BinaryFileData) → Option (List (Option BinaryFileData)))) :
    BindingInit :=
  let undoFeature := constructorUndoSetup hasUndoManager hasExcalidrawDom
  let initialValue := yjsToExcalidraw yElements
  let lastKnown := snapshotOfYElements yElements
  let initialAssets := yAssets.map (fun kv => assetsGet yAssets kv.1)
  let filesAdded :=
    match transformRemoteFiles with
    | some hook =>
      match hook initialAssets with
      | some res => some res
      | none => none
    | none => some initialAssets
  { undoFeature := undoFeature
    scene := initialValue
    lastKnownElements := lastKnown
    initialFilesAdded := filesAdded
    collaborators := initialCollaborators awarenessStates }


/-- The element produced by the local-reuse lookup
`scene.find(e => e.id === el.id) || el` always carries `el`'s id. -/
theorem find_reuse_id (scene : List Element) (el : Element) :
    ((scene.find? (fun existingEl => existingEl.id == el.id)).getD el).id = el.id := by
  cases h : scene.find? (fun existingEl => existingEl.id == el.id) with
  | none => rfl
  | some e =>
    have := List.find?_some h
    simpa using this

/-- C2: for every transaction whose origin equals this binding instance,
both the remote element listener and the remote asset listener return
immediately: the scene, the stored snapshot, and the UI asset store are
left unchanged by the notification (`updateScene` and `addFiles` are not
invoked). -/
theorem selfTagged_transactions_are_ignored
    (selfId : Nat) (yElements : List YElementEntry) (scene : List Element)
    (lastKnown : List LastKnownOrderedElement) (events : List YChangeEvent)
    (yAssets : List (String × BinaryFileData))
    (hook : Option (List (Option BinaryFileData) → Option (List (Option BinaryFileData))))
    (keysChanged : List String) (origin : Nat) (h : origin = selfId) :
    remoteElementsChangeHandler selfId yElements scene lastKnown events origin =
      { scene := scene, lastKnownElements := lastKnown, updateSceneCalled := false } ∧
    remoteFilesChangeHandler selfId yAssets hook keysChanged origin = none := by
  subst h
  exact ⟨by simp [remoteElementsChangeHandler], by simp [remoteFilesChangeHandler]⟩

theorem selfTagged_transactions_are_ignored_witness :
    remoteElementsChangeHandler 5 [⟨⟨"a", 1, 0⟩, "a0"⟩] [⟨"a", 1, 0⟩] [] [] 5 =
      { scene := [⟨"a", 1, 0⟩], lastKnownElements := [], updateSceneCalled := false } ∧
    remoteFilesChangeHandler 5 [] none ["k"] 5 = none :=
  selfTagged_transactions_are_ignored 5 [⟨⟨"a", 1, 0⟩, "a0"⟩] [⟨"a", 1, 0⟩] [] []
    [] none ["k"] 5 rfl

/-- C1: after the remote element listener handles a batch whose transaction
origin is not this binding, the list pushed to the UI via `updateScene` is
ordered exactly by the shared sequence's position keys (its id sequence is
the position-sorted id sequence of `yElements`), and the stored snapshot
equals the shared sequence's entries sorted by position key. -/
theorem remoteElements_order_and_snapshot_invariant
    (selfId : Nat) (yElements : List YElementEntry) (scene : List Element)
    (lastKnown : List LastKnownOrderedElement) (events : List YChangeEvent)
    (origin : Nat) (h : origin ≠ selfId) :
    (remoteElementsChangeHandler selfId yElements scene lastKnown events origin).updateSceneCalled = true ∧
    (remoteElementsChangeHandler selfId yElements scene lastKnown events origin).scene.map (·.id) =
      (sortByKey (·.pos) yElements).map (·.el.id) ∧
    (remoteElementsChangeHandler selfId yElements scene lastKnown events origin).lastKnownElements =
      snapshotOfYElements yElements := by
  simp only [remoteElementsChangeHandler, if_neg h]
  refine ⟨trivial, ?_, trivial⟩
  rw [yjsToExcalidraw, List.map_map, List.map_map]
  refine List.map_congr_left (fun x _ => ?_)
  simp only [Function.comp]
  by_cases hc : (changedElementIds events).contains x.el.id
  · rw [if_pos hc]
  · rw [if_neg hc]
    exact find_reuse_id scene x.el

theorem remoteElements_order_and_snapshot_invariant_witness :
    (remoteElementsChangeHandler 0 [⟨⟨"b", 1, 10⟩, "a1"⟩, ⟨⟨"a", 2, 20⟩, "a0"⟩]
      [⟨"a", 2, 99⟩] [] [] 1).updateSceneCalled = true ∧
    (remoteElementsChangeHandler 0 [⟨⟨"b", 1, 10⟩, "a1"⟩, ⟨⟨"a", 2, 20⟩, "a0"⟩]
      [⟨"a", 2, 99⟩] [] [] 1).scene.map (·.id) =
      (sortByKey (·.pos) ([⟨⟨"b", 1, 10⟩, "a1"⟩, ⟨⟨"a", 2, 20⟩, "a0"⟩] : List YElementEntry)).map (·.el.id) ∧
    (remoteElementsChangeHandler 0 [⟨⟨"b", 1, 10⟩, "a1"⟩, ⟨⟨"a", 2, 20⟩, "a0"⟩]
      [⟨"a", 2, 99⟩] [] [] 1).lastKnownElements =
      snapshotOfYElements ([⟨⟨"b", 1, 10⟩, "a1"⟩, ⟨⟨"a", 2, 20⟩, "a0"⟩] : List YElementEntry) :=
  remoteElements_order_and_snapshot_invariant 0
    [⟨⟨"b", 1, 10⟩, "a1"⟩, ⟨⟨"a", 2, 20⟩, "a0"⟩] [⟨"a", 2, 99⟩] [] [] 1 (by decide)

/-- C9: for a non-self-tagged batch, the element list the listener builds
takes, at every index of the position-ordered shared sequence, the fresh
payload when that id is in the changed-content set derived from the change
records, and otherwise the locally-held scene element with that id when one
exists, falling back to the fresh payload when none does. -/
theorem remoteElements_fresh_vs_reused
    (selfId : Nat) (yElements : List YElementEntry) (scene : List Element)
    (lastKnown : List LastKnownOrderedElement) (events : List YChangeEvent)
    (origin : Nat) (h : origin ≠ selfId) :
    (remoteElementsChangeHandler selfId yElements scene lastKnown events origin).scene =
      (yjsToExcalidraw yElements).map (fun fresh =>
        if (changedElementIds events).contains fresh.id then fresh
        else
          match scene.find? (fun existingEl => existingEl.id == fresh.id) with
          | some localEl => localEl
          | none => fresh) := by
  unfold remoteElementsChangeHandler
  rw [if_neg h]
  refine List.map_congr_left (fun fresh _ => ?_)
  by_cases hc : (changedElementIds events).contains fresh.id
  · rw [if_pos hc, if_pos hc]
  · rw [if_neg hc, if_neg hc]
    cases hf : scene.find? (fun existingEl => existingEl.id == fresh.id) with
    | none => rfl
    | some localEl => rfl

theorem remoteElements_fresh_vs_reused_witness :
    (remoteElementsChangeHandler 0 [⟨⟨"b", 1, 10⟩, "a1"⟩, ⟨⟨"a", 2, 20⟩, "a0"⟩]
      [⟨"a", 2, 99⟩] [] [⟨true, "b"⟩] 1).scene =
      (yjsToExcalidraw ([⟨⟨"b", 1, 10⟩, "a1"⟩, ⟨⟨"a", 2, 20⟩, "a0"⟩] : List YElementEntry)).map (fun fresh =>
        if (changedElementIds ([⟨true, "b"⟩] : List YChangeEvent)).contains fresh.id then fresh
        else
          match ([⟨"a", 2, 99⟩] : List Element).find? (fun existingEl => existingEl.id == fresh.id) with
          | some localEl => localEl
          | none => fresh) :=
  remoteElements_fresh_vs_reused 0 [⟨⟨"b", 1, 10⟩, "a1"⟩, ⟨⟨"a", 2, 20⟩, "a0"⟩]
    [⟨"a", 2, 99⟩] [] [⟨true, "b"⟩] 1 (by decide)

/-- C4: for a non-self-tagged asset batch with the `transformRemoteFiles`
hook present, a hook returning no value drops the whole batch (`addFiles`
is never called), while a hook returning an empty collection still leads to
`addFiles` being called with that empty collection — the two signals stay
distinct. -/
theorem transformRemoteFiles_skip_vs_empty
    (selfId origin : Nat) (yAssets : List (String × BinaryFileData))
    (keysChanged : List String)
    (hook : List (Option BinaryFileData) → Option (List (Option BinaryFileData)))
    (h : origin ≠ selfId) :
    (hook (keysChanged.map (fun key => assetsGet yAssets key)) = none →
      remoteFilesChangeHandler selfId yAssets (some hook) keysChanged origin = none) ∧
    (hook (keysChanged.map (fun key => assetsGet yAssets key)) = some [] →
      remoteFilesChangeHandler selfId yAssets (some hook) keysChanged origin = some []) := by
  constructor
  · intro hh
    simp [remoteFilesChangeHandler, if_neg h, hh]
  · intro hh
    simp [remoteFilesChangeHandler, if_neg h, hh]

theorem transformRemoteFiles_skip_vs_empty_witness :
    remoteFilesChangeHandler 0 [] (some (fun _ => none)) ["k"] 1 = none ∧
    remoteFilesChangeHandler 0 [] (some (fun _ => some [])) ["k"] 1 = some [] :=
  ⟨(transformRemoteFiles_skip_vs_empty 0 1 [] ["k"] (fun _ => none) (by decide)).1 rfl,
   (transformRemoteFiles_skip_vs_empty 0 1 [] ["k"] (fun _ => some []) (by decide)).2 rfl⟩

/-- C10: for a non-self-tagged asset batch with no `transformRemoteFiles`
hook installed, the listener hands `addFiles` exactly one looked-up entry
per changed key, in order — including keys the batch removed from the map,
whose looked-up payload is the absent value. -/
theorem remoteFiles_one_entry_per_changed_key
    (selfId origin : Nat) (yAssets : List (String × BinaryFileData))
    (keysChanged : List String) (h : origin ≠ selfId) :
    remoteFilesChangeHandler selfId yAssets none keysChanged origin =
      some (keysChanged.map (fun key => assetsGet yAssets key)) ∧
    (keysChanged.map (fun key => assetsGet yAssets key)).length = keysChanged.length ∧
    ∀ key, key ∉ yAssets.map Prod.fst → assetsGet yAssets key = none := by
  refine ⟨by simp [remoteFilesChangeHandler, if_neg h], List.length_map _ _, ?_⟩
  intro key hk
  rw [assetsGet]
  cases hf : yAssets.find? (fun kv => kv.1 == key) with
  | none => rfl
  | some kv =>
    exfalso
    apply hk
    have hmem := List.mem_of_find?_eq_some hf
    have hp := List.find?_some hf
    have : kv.1 = key := by simpa using hp
    exact this ▸ List.mem_map_of_mem Prod.fst hmem

theorem remoteFiles_one_entry_per_changed_key_witness :
    remoteFilesChangeHandler 0 [("f1", ⟨"f1", "d1"⟩)] none ["f1", "gone"] 1 =
      some (["f1", "gone"].map (fun key => assetsGet [("f1", ⟨"f1", "d1"⟩)] key)) ∧
    ((["f1", "gone"] : List String).map (fun key => assetsGet [("f1", ⟨"f1", "d1"⟩)] key)).length =
      (["f1", "gone"] : List String).length ∧
    ∀ key, key ∉ ([("f1", (⟨"f1", "d1"⟩ : BinaryFileData))] : List (String × BinaryFileData)).map Prod.fst →
      assetsGet [("f1", ⟨"f1", "d1"⟩)] key = none :=
  remoteFiles_one_entry_per_changed_key 0 1 [("f1", ⟨"f1", "d1"⟩)] ["f1", "gone"] (by decide)

/-- The Snapshot Entry list returned by the Delta Computer reproduces the
current element list's `(id, version)` pairs in order, so it compares equal
to that list under `areElementsSame`. -/
theorem areElementsSame_enumFrom_map (els : List Element) (n : Nat)
    (f : Nat × Element → String) :
    areElementsSame ((List.enumFrom n els).map
      (fun p => ⟨p.2.id, p.2.version, f p⟩)) els = true := by
  induction els generalizing n with
  | nil => rfl
  | cons e els ih =>
    simp only [List.enumFrom, List.map_cons, areElementsSame, ih, Bool.and_true,
      beq_self_eq_true, Bool.and_self]

/-- C5: when the UI delivers an element list whose `(id, version)` pairs, in
order, match the stored snapshot's, the Local Mutation Detector produces
zero element operations and never calls `applyElementOperations`; and after
any call, delivering the same element list again produces zero operations
and no write on the second call. -/
theorem localMutationDetector_idempotent
    (lastKnown : List LastKnownOrderedElement) (elements : List Element) :
    (areElementsSame lastKnown elements = true →
      localElementsOnChange lastKnown elements =
        { operations := [], lastKnownElements := lastKnown, wroteToYElements := false }) ∧
    (localElementsOnChange
        (localElementsOnChange lastKnown elements).lastKnownElements elements).operations = [] ∧
    (localElementsOnChange
        (localElementsOnChange lastKnown elements).lastKnownElements elements).wroteToYElements = false := by
  have second : ∀ lk, areElementsSame lk elements = true →
      (localElementsOnChange lk elements).operations = [] ∧
      (localElementsOnChange lk elements).wroteToYElements = false := by
    intro lk hsame
    rw [localElementsOnChange, if_pos hsame]
    exact ⟨rfl, rfl⟩
  by_cases h : areElementsSame lastKnown elements = true
  · have hfirst : localElementsOnChange lastKnown elements =
        { operations := [], lastKnownElements := lastKnown, wroteToYElements := false } := by
      rw [localElementsOnChange, if_pos h]
    refine ⟨fun _ => hfirst, ?_, ?_⟩
    · rw [hfirst]
      exact (second lastKnown h).1
    · rw [hfirst]
      exact (second lastKnown h).2
  · have hfirst : (localElementsOnChange lastKnown elements).lastKnownElements =
        (getDeltaOperationsForElements lastKnown elements).lastKnownElements := by
      rw [localElementsOnChange, if_neg h]
    have hsame2 : areElementsSame
        (getDeltaOperationsForElements lastKnown elements).lastKnownElements elements = true := by
      rw [getDeltaOperationsForElements]
      exact areElementsSame_enumFrom_map elements 0 _
    refine ⟨fun hc => absurd hc h, ?_, ?_⟩
    · rw [hfirst]
      exact (second _ hsame2).1
    · rw [hfirst]
      exact (second _ hsame2).2

theorem localMutationDetector_idempotent_witness :
    localElementsOnChange [⟨"a", 1, "a0"⟩] [⟨"a", 1, 5⟩] =
      { operations := [], lastKnownElements := [⟨"a", 1, "a0"⟩], wroteToYElements := false } :=
  (localMutationDetector_idempotent [⟨"a", 1, "a0"⟩] [⟨"a", 1, 5⟩]).1 (by decide)

/-- C6: while the undo/redo feature is bound, ctrl+shift+"z" (the modifier
chord, any letter case) invokes redo exactly once and stops propagation,
ctrl+"z" without shift invokes undo exactly once and stops propagation, and
the `keydown` listener is registered at the capture phase. -/
theorem keyPressHandler_undo_redo_chords (event : KeyEvent) :
    (event.ctrlKey = true → event.shiftKey = true → keyIsZ event.key = true →
      keyPressHandler event =
        { stoppedPropagation := true, undoCalls := 0, redoCalls := 1 }) ∧
    (event.ctrlKey = true → event.shiftKey = false → keyIsZ event.key = true →
      keyPressHandler event =
        { stoppedPropagation := true, undoCalls := 1, redoCalls := 0 }) ∧
    keydownListenerCapture = true := by
  refine ⟨?_, ?_, rfl⟩
  · intro h1 h2 h3
    simp [keyPressHandler, h1, h2, h3]
  · intro h1 h2 h3
    simp [keyPressHandler, h1, h2, h3]

theorem keyPressHandler_undo_redo_chords_witness :
    (keyPressHandler ⟨true, true, some "Z"⟩ =
      { stoppedPropagation := true, undoCalls := 0, redoCalls := 1 }) ∧
    (keyPressHandler ⟨true, false, some "z"⟩ =
      { stoppedPropagation := true, undoCalls := 1, redoCalls := 0 }) :=
  ⟨(keyPressHandler_undo_redo_chords ⟨true, true, some "Z"⟩).1 rfl rfl (by decide),
   (keyPressHandler_undo_redo_chords ⟨true, false, some "z"⟩).2.1 rfl rfl (by decide)⟩

/-- C7: while the undo/redo feature is bound, the undo manager's
tracked-origin set contains this binding instance — `setupUndoRedo` runs
`addTrackedOrigin(this)` — and the teardown subscription pushed alongside
removes that origin again at `destroy()`. -/
theorem undo_tracked_origin_lifecycle (selfId : Nat) (tracked : List Nat) :
    (constructorUndoSetup true true).trackedOriginAdded = true ∧
    selfId ∈ addTrackedOrigin selfId tracked ∧
    selfId ∉ removeTrackedOrigin selfId (addTrackedOrigin selfId tracked) := by
  refine ⟨rfl, List.mem_cons_self selfId tracked, ?_⟩
  intro hmem
  rw [removeTrackedOrigin] at hmem
  exact (of_decide_eq_true (List.mem_filter.mp hmem).2) rfl

/-- C8: constructing the binding with an undo manager but no UI root logs
the warning, attaches no key or button handlers, adds no tracked origin,
and still completes construction — elements, assets and collaborators are
initialized exactly as they would otherwise be. -/
theorem undoManager_without_dom_degrades_gracefully
    (yElements : List YElementEntry) (yAssets : List (String × BinaryFileData))
    (awarenessStates : Option AwarenessStates)
    (hook : Option (List (Option BinaryFileData) → Option (List (Option BinaryFileData)))) :
    (mkBinding yElements yAssets awarenessStates true false hook).undoFeature =
      { warned := true, keyHandlerAttached := false
        buttonRescanAttached := false, trackedOriginAdded := false } ∧
    (mkBinding yElements yAssets awarenessStates true false hook).scene =
      yjsToExcalidraw yElements ∧
    (mkBinding yElements yAssets awarenessStates true false hook).lastKnownElements =
      snapshotOfYElements yElements ∧
    (mkBinding yElements yAssets awarenessStates true false hook).collaborators =
      initialCollaborators awarenessStates :=
  ⟨rfl, rfl, rfl, rfl⟩

/-- C3 (code-bug demonstration): the awareness change handler always
removes the local session's own id before publishing, but the initial view
built by the constructor does not — with local client id 1 present in the
awareness states (as it is from the moment `Awareness` is constructed), the
constructor publishes a collaborator map containing key "1". -/
theorem initialCollaborators_contains_local_session :
    mapHas
      (remoteAwarenessChangeHandler 1
        [(1, some ⟨none, none, none, none⟩), (2, some ⟨some (3, 4), none, none, none⟩)]
        [] [1, 2] [] []) "1" = false ∧
    mapHas
      (mkBinding [] [] (some [(1, some ⟨none, none, none, none⟩),
        (2, some ⟨some (3, 4), none, none, none⟩)]) false false none).collaborators
      "1" = true := by
  constructor
  · rfl
  · rfl
